import Mathlib

/-
Verification of the graphsync transport adapter of go-data-transfer.

The definitions below are a shallow embedding of the Go source:
  * the channel/state data model of `transport/graphsync` (the `Transport`
    struct and its maps),
  * the exposed operations OpenChannel / PauseChannel / ResumeChannel /
    CloseChannel / CleanupChannel,
  * the graphsync hook callbacks (gsOutgoingRequestHook, gsIncomingBlockHook,
    gsOutgoingBlockHook, gsReqRecdHook, gsCompletedResponseListener,
    gsRequestUpdatedHook, gsIncomingResponseHook, processExtension,
    gsRequestorCancelledListener),
  * the out-of-band receiver's receiveRequest dispatch.

Go maps are modelled as association lists with replace-on-insert semantics;
the event handler (`t.events`) is passed explicitly as a function record;
calls out to graphsync, to the hook-actions object and to the event handler
are recorded as explicit traces so that theorems can speak about which
calls were or were not issued.  Opaque wire-level values (links, CIDs,
selectors, undecodable extension bytes) are modelled as natural numbers.
-/

namespace DT

/-- Peer identifier. Go's zero-value `peer.ID` is modelled as `0`. -/
abbrev PeerID := Nat

/-- Transfer identifier (`uint64` in the source). -/
abbrev TransferID := Nat

/-- Graphsync request identifier. -/
abbrev GsRequestID := Nat

/-- `datatransfer.ChannelID`: the struct `{Initiator, Responder, ID}`.
The source constructs channel ids with only `Initiator` and `ID` set, so
`responder` stays the zero peer `0` in every value built by the adapter. -/
structure ChannelID where
  initiator : PeerID
  responder : PeerID
  id : TransferID
deriving DecidableEq, Repr

/-- `graphsyncKey`: the pair `{requestID, p}` used as correlation key. -/
structure GraphsyncKey where
  requestID : GsRequestID
  p : PeerID
deriving DecidableEq, Repr

/-- `responseProgress`: the block-progress watermarks. -/
structure ResponseProgress where
  currentSent : Nat
  maximumSent : Nat
deriving DecidableEq, Repr

/-- A data-transfer request message (the fields of `transferRequest` the
adapter reads: `XferID`, `Pull`, `BCid`, `Stor`). -/
structure DTRequest where
  xferID : TransferID
  isPull : Bool
  baseCid : Nat
  selector : Nat
deriving DecidableEq, Repr

/-- A data-transfer response message (the fields of `transferResponse` the
adapter reads: `XferID`, `Acpt`, `Updt`). -/
structure DTResponse where
  xferID : TransferID
  accepted : Bool
  isUpdate : Bool
deriving DecidableEq, Repr

/-- `message.DataTransferMessage`: a request or a response, discriminated by
`IsRq` on the wire and by `IsRequest()` on the interface. -/
inductive DTMessage where
  | request (r : DTRequest)
  | response (r : DTResponse)
deriving DecidableEq, Repr

/-- `msg.IsRequest()`. -/
def DTMessage.isRequest : DTMessage → Bool
  | .request _ => true
  | .response _ => false

/-- `msg.TransferID()`. -/
def DTMessage.transferID : DTMessage → TransferID
  | .request r => r.xferID
  | .response r => r.xferID

/-- `graphsync.ExtensionData` carrying an encoded data-transfer message.
`extension.ToExtensionData` never fails on the well-formed messages of this
model, so encoding is the injection into this wrapper. -/
structure ExtensionData where
  msg : DTMessage
deriving DecidableEq, Repr

/-- `extension.ToExtensionData(msg)` on a well-formed message. -/
def toExtensionData (m : DTMessage) : ExtensionData := ⟨m⟩

/-- The data-transfer extension slot of a graphsync request or response:
absent, present but undecodable (the raw bytes abstracted as a number), or
present and decoding to a message. -/
inductive ExtensionPayload where
  | missing
  | malformed (raw : Nat)
  | present (m : DTMessage)
deriving DecidableEq, Repr

/-- Errors and sentinel errors visible to the adapter. -/
inductive DTError where
  | handlerNotSet
  | handlerAlreadySet
  | channelNotFound
  | pause
  | resume
  | decodeError (raw : Nat)
  | requestOnResponseChannel
  | responseOnRequestChannel
  | handlerFailure (code : Nat)
deriving DecidableEq, Repr

/-- `extension.GetTransferData`: `(nil, nil)` when the extension is absent,
`(nil, err)` when present but undecodable, `(msg, nil)` otherwise. -/
def GetTransferData : ExtensionPayload → Except DTError (Option DTMessage)
  | .missing => .ok none
  | .malformed raw => .error (.decodeError raw)
  | .present m => .ok (some m)

/-- `graphsync.RequestData` as read by the adapter: its id and its
data-transfer extension slot. -/
structure GsRequestData where
  id : GsRequestID
  ext : ExtensionPayload
deriving DecidableEq, Repr

/-- `graphsync.ResponseData` as read by the adapter. -/
structure GsResponseData where
  id : GsRequestID
  ext : ExtensionPayload
deriving DecidableEq, Repr

/-- `graphsync.ResponseStatusCode` restricted to the codes the listener
distinguishes. -/
inductive ResponseStatus where
  | completedFull
  | cancelled
  | otherCode (n : Nat)
deriving DecidableEq, Repr

/-- Semantic data-transfer events raised through `transport.Events`. -/
inductive Event where
  | onChannelOpened (chid : ChannelID)
  | onDataReceived (chid : ChannelID) (link : Nat) (size : Nat)
  | onDataSent (chid : ChannelID) (link : Nat) (size : Nat)
  | onRequestReceived (chid : ChannelID) (req : DTRequest)
  | onResponseReceived (chid : ChannelID) (resp : DTResponse)
  | onChannelCompleted (chid : ChannelID) (success : Bool)
deriving DecidableEq, Repr

/-- Calls issued by a hook on its hook-actions object. -/
inductive HookAction where
  | terminateWithError (e : DTError)
  | pauseRequest
  | pauseResponse
  | sendExtensionData (ext : ExtensionData)
  | updateRequestWithExtensions (ext : ExtensionData)
  | validateRequest
deriving DecidableEq, Repr

/-- Calls issued by the exposed operations to the block transport (plus the
context-cancel handle invoked by CloseChannel on the requester side). -/
inductive GsAction where
  | request (dest : PeerID) (root : Nat) (selector : Nat) (ext : ExtensionData)
  | pauseRequest (requestID : GsRequestID)
  | unpauseRequest (requestID : GsRequestID) (exts : List ExtensionData)
  | pauseResponse (p : PeerID) (requestID : GsRequestID)
  | unpauseResponse (p : PeerID) (requestID : GsRequestID) (exts : List ExtensionData)
  | cancelResponse (p : PeerID) (requestID : GsRequestID)
  | cancelRequestContext (chid : ChannelID)
deriving DecidableEq, Repr

/-- The event handler (`transport.Events`): result of each callback as
returned by the enclosing manager. -/
structure EventsHandler where
  onChannelOpened : ChannelID → Option DTError
  onDataReceived : ChannelID → Nat → Nat → Option DTError
  onDataSent : ChannelID → Nat → Nat → Option DTMessage × Option DTError
  onRequestReceived : ChannelID → DTRequest → Option DTResponse × Option DTError
  onResponseReceived : ChannelID → DTResponse → Option DTError
  onChannelCompleted : ChannelID → Bool → Option DTError

/-- Lookup in an association-list map (Go `m[k]`). -/
def mlookup {K V : Type} [DecidableEq K] (k : K) : List (K × V) → Option V
  | [] => none
  | (k1, v) :: rest => if k1 = k then some v else mlookup k rest

/-- Delete from an association-list map (Go `delete(m, k)`). -/
def merase {K V : Type} [DecidableEq K] (k : K) : List (K × V) → List (K × V)
  | [] => []
  | (k1, v) :: rest => if k1 = k then merase k rest else (k1, v) :: merase k rest

/-- Insert/replace in an association-list map (Go `m[k] = v`). -/
def minsert {K V : Type} [DecidableEq K] (k : K) (v : V) (m : List (K × V)) :
    List (K × V) :=
  (k, v) :: merase k m

/-- Insert into a key set. -/
def sinsert {K : Type} [DecidableEq K] (k : K) (l : List K) : List K :=
  if k ∈ l then l else k :: l

/-- Delete from a key set. -/
def serase {K : Type} [DecidableEq K] (k : K) : List K → List K
  | [] => []
  | x :: rest => if x = k then serase k rest else x :: serase k rest

/-- The mutable fields of the `Transport` struct.  The `contextCancelMap`
and `pending` maps hold opaque handles (a cancel closure, a latch), so only
key presence is modelled; `t.events` is passed to each operation
explicitly. -/
structure TransportState where
  peerID : PeerID
  graphsyncRequestMap : List (GraphsyncKey × ChannelID)
  channelIDMap : List (ChannelID × GraphsyncKey)
  contextCancelSet : List ChannelID
  pending : List ChannelID
  requestorCancelledSet : List ChannelID
  pendingExtensions : List (ChannelID × List ExtensionData)
  responseProgressMap : List (ChannelID × ResponseProgress)
deriving DecidableEq, Repr

/-- A transport state with no live channels. -/
def emptyState (selfID : PeerID) : TransportState :=
  ⟨selfID, [], [], [], [], [], [], []⟩

/-- `cleanupChannel`: drops every per-channel entry and the reverse key. -/
def cleanupChannel (s : TransportState) (chid : ChannelID) (gsKey : GraphsyncKey) :
    TransportState :=
  { s with
    channelIDMap := merase chid s.channelIDMap
    contextCancelSet := serase chid s.contextCancelSet
    pending := serase chid s.pending
    graphsyncRequestMap := merase gsKey s.graphsyncRequestMap
    responseProgressMap := merase chid s.responseProgressMap
    pendingExtensions := merase chid s.pendingExtensions
    requestorCancelledSet := serase chid s.requestorCancelledSet }

/-- `gsKeyFromChannelID`.  The source loops on a pending-signal; its only
terminating outcomes are the bound key or `ErrChannelNotFound` (no pending
entry, or context expiry while waiting), so on an unbound channel the model
returns `ErrChannelNotFound`. -/
def gsKeyFromChannelID (s : TransportState) (chid : ChannelID) :
    Except DTError GraphsyncKey :=
  match mlookup chid s.channelIDMap with
  | some k => .ok k
  | none => .error .channelNotFound

/-- Result of an exposed operation: the returned error (`none` = success),
the block-transport calls issued, and the state after. -/
structure ApiResult where
  err : Option DTError
  actions : List GsAction
  state : TransportState
deriving DecidableEq, Repr

/-- `OpenChannel`.  The asynchronous `executeGsRequest` goroutine that
drains the error channel is not part of this sequential model; the call
returns right after issuing the graphsync request. -/
def OpenChannel (events : Option EventsHandler) (s : TransportState)
    (dataSender : PeerID) (chid : ChannelID) (root : Nat) (stor : Nat)
    (msg : DTMessage) : ApiResult :=
  match events with
  | none => ⟨some .handlerNotSet, [], s⟩
  | some _ =>
    let ext := toExtensionData msg
    ⟨none, [.request dataSender root stor ext],
      { s with
        pending := sinsert chid s.pending
        contextCancelSet := sinsert chid s.contextCancelSet }⟩

/-- `PauseChannel`. -/
def PauseChannel (events : Option EventsHandler) (s : TransportState)
    (chid : ChannelID) : ApiResult :=
  match events with
  | none => ⟨some .handlerNotSet, [], s⟩
  | some _ =>
    match gsKeyFromChannelID s chid with
    | .error e => ⟨some e, [], s⟩
    | .ok gsKey =>
      if gsKey.p = s.peerID then
        ⟨none, [.pauseRequest gsKey.requestID], s⟩
      else if chid ∈ s.requestorCancelledSet then
        ⟨none, [], s⟩
      else
        ⟨none, [.pauseResponse gsKey.p gsKey.requestID], s⟩

/-- `ResumeChannel`. -/
def ResumeChannel (events : Option EventsHandler) (s : TransportState)
    (msg : Option DTMessage) (chid : ChannelID) : ApiResult :=
  match events with
  | none => ⟨some .handlerNotSet, [], s⟩
  | some _ =>
    match gsKeyFromChannelID s chid with
    | .error e => ⟨some e, [], s⟩
    | .ok gsKey =>
      let extensions : List ExtensionData :=
        match msg with
        | none => []
        | some m => [toExtensionData m]
      if gsKey.p = s.peerID then
        ⟨none, [.unpauseRequest gsKey.requestID extensions], s⟩
      else if chid ∈ s.requestorCancelledSet then
        ⟨none, [],
          { s with pendingExtensions :=
              (minsert chid ((mlookup chid s.pendingExtensions).getD [] ++ extensions)
                s.pendingExtensions) }⟩
      else
        ⟨none, [.unpauseResponse gsKey.p gsKey.requestID extensions], s⟩

/-- `CloseChannel`. -/
def CloseChannel (events : Option EventsHandler) (s : TransportState)
    (chid : ChannelID) : ApiResult :=
  match events with
  | none => ⟨some .handlerNotSet, [], s⟩
  | some _ =>
    match gsKeyFromChannelID s chid with
    | .error e => ⟨some e, [], s⟩
    | .ok gsKey =>
      if gsKey.p = s.peerID then
        if chid ∈ s.contextCancelSet then
          ⟨none, [.cancelRequestContext chid], s⟩
        else
          ⟨some .channelNotFound, [], s⟩
      else if chid ∈ s.requestorCancelledSet then
        ⟨none, [], cleanupChannel s chid gsKey⟩
      else
        ⟨none, [.cancelResponse gsKey.p gsKey.requestID], s⟩

/-- `CleanupChannel` (the exported one). -/
def CleanupChannel (s : TransportState) (chid : ChannelID) : TransportState :=
  match mlookup chid s.channelIDMap with
  | some gsKey => cleanupChannel s chid gsKey
  | none => s

/-- Result of a hook invocation: state after, events raised, hook-action
calls issued (in order). -/
structure HookResult where
  state : TransportState
  events : List Event
  actions : List HookAction
deriving DecidableEq, Repr

/-- `gsOutgoingRequestHook`.  Note the initiator choice: a data-transfer
request carried on a locally issued graphsync request means this peer
initiated (a pull), so `initiator = t.peerID`; a carried response means the
remote initiated (a push), so `initiator = p`. -/
def gsOutgoingRequestHook (h : EventsHandler) (s : TransportState) (p : PeerID)
    (request : GsRequestData) : HookResult :=
  match request.ext with
  | .present msg =>
    let initiator := if msg.isRequest then s.peerID else p
    let chid : ChannelID := ⟨initiator, 0, msg.transferID⟩
    let err := h.onChannelOpened chid
    let s1 :=
      if err = none then
        { s with
          graphsyncRequestMap :=
            minsert ⟨request.id, s.peerID⟩ chid s.graphsyncRequestMap
          channelIDMap := minsert chid ⟨request.id, s.peerID⟩ s.channelIDMap }
      else s
    ⟨{ s1 with pending := serase chid s1.pending }, [.onChannelOpened chid], []⟩
  | _ => ⟨s, [], []⟩

/-- `gsIncomingBlockHook`. -/
def gsIncomingBlockHook (h : EventsHandler) (s : TransportState) (p : PeerID)
    (response : GsResponseData) (link : Nat) (size : Nat) : HookResult :=
  match mlookup (⟨response.id, s.peerID⟩ : GraphsyncKey) s.graphsyncRequestMap with
  | none => ⟨s, [], []⟩
  | some chid =>
    match h.onDataReceived chid link size with
    | none => ⟨s, [.onDataReceived chid link size], []⟩
    | some e =>
      if e = .pause then ⟨s, [.onDataReceived chid link size], [.pauseRequest]⟩
      else ⟨s, [.onDataReceived chid link size], [.terminateWithError e]⟩

/-- `gsOutgoingBlockHook`.  The progress record is looked up through the
correlation; a correlated responder-side channel always has one (installed
by `gsReqRecdHook`), so the none branch, where the Go code would
dereference a nil pointer, is modelled as a no-op. -/
def gsOutgoingBlockHook (h : EventsHandler) (s : TransportState) (p : PeerID)
    (request : GsRequestData) (link : Nat) (size : Nat) : HookResult :=
  match mlookup (⟨request.id, p⟩ : GraphsyncKey) s.graphsyncRequestMap with
  | none => ⟨s, [], []⟩
  | some chid =>
    match mlookup chid s.responseProgressMap with
    | none => ⟨s, [], []⟩
    | some rp =>
      let cur := rp.currentSent + size
      if cur ≤ rp.maximumSent then
        ⟨{ s with responseProgressMap :=
            (minsert chid ⟨cur, rp.maximumSent⟩ s.responseProgressMap) }, [], []⟩
      else
        let s1 := { s with responseProgressMap :=
            (minsert chid ⟨cur, cur⟩ s.responseProgressMap) }
        let res := h.onDataSent chid link size
        let sendActs : List HookAction :=
          match res.1 with
          | some m => [.sendExtensionData (toExtensionData m)]
          | none => []
        match res.2 with
        | none => ⟨s1, [.onDataSent chid link size], sendActs⟩
        | some e =>
          if e = .pause then
            ⟨s1, [.onDataSent chid link size], .pauseResponse :: sendActs⟩
          else
            ⟨s1, [.onDataSent chid link size], [.terminateWithError e]⟩

/-- `gsReqRecdHook`.  A malformed extension terminates; an absent one is a
no-op.  Otherwise exactly one event is raised according to the message tag
(a data-transfer request coming in on graphsync is a pull, so the remote
peer is the initiator; a response means a locally initiated push), a
returned response message is attached, handler errors other than the pause
sentinel terminate before any binding is made, and otherwise the locked
section flushes a cancelled channel's queued extensions, installs the
bindings, resets block progress and validates the request. -/
def gsReqRecdHook (h : EventsHandler) (s : TransportState) (p : PeerID)
    (request : GsRequestData) : HookResult :=
  match request.ext with
  | .malformed raw => ⟨s, [], [.terminateWithError (.decodeError raw)]⟩
  | .missing => ⟨s, [], []⟩
  | .present msg =>
    let step : ChannelID × Event × Option DTResponse × Option DTError :=
      match msg with
      | .request r =>
        let chid : ChannelID := ⟨p, 0, r.xferID⟩
        let pr := h.onRequestReceived chid r
        (chid, .onRequestReceived chid r, pr.1, pr.2)
      | .response r =>
        let chid : ChannelID := ⟨s.peerID, 0, r.xferID⟩
        (chid, .onResponseReceived chid r, none, h.onResponseReceived chid r)
    let chid := step.1
    let evt := step.2.1
    let responseMessage := step.2.2.1
    let err := step.2.2.2
    let sendActs : List HookAction :=
      match responseMessage with
      | some rm => [.sendExtensionData (toExtensionData (.response rm))]
      | none => []
    let finish : List HookAction → HookResult := fun pauseActs =>
      let gsKey : GraphsyncKey := ⟨request.id, p⟩
      let flushActs : List HookAction :=
        if chid ∈ s.requestorCancelledSet then
          ((mlookup chid s.pendingExtensions).getD []).map .sendExtensionData
        else []
      let s1 :=
        if chid ∈ s.requestorCancelledSet then
          { s with
            requestorCancelledSet := serase chid s.requestorCancelledSet
            pendingExtensions := merase chid s.pendingExtensions }
        else s
      let s2 := { s1 with
        graphsyncRequestMap := minsert gsKey chid s1.graphsyncRequestMap
        channelIDMap := minsert chid gsKey s1.channelIDMap
        responseProgressMap :=
          (match mlookup chid s1.responseProgressMap with
           | some rp => minsert chid ⟨0, rp.maximumSent⟩ s1.responseProgressMap
           | none => minsert chid ⟨0, 0⟩ s1.responseProgressMap) }
      ⟨s2, [evt], sendActs ++ pauseActs ++ flushActs ++ [.validateRequest]⟩
    match err with
    | none => finish []
    | some e =>
      if e = .pause then finish [.pauseResponse]
      else ⟨s, [evt], sendActs ++ [.terminateWithError e]⟩

/-- `gsCompletedResponseListener`. -/
def gsCompletedResponseListener (h : EventsHandler) (s : TransportState)
    (p : PeerID) (request : GsRequestData) (status : ResponseStatus) : HookResult :=
  match mlookup (⟨request.id, p⟩ : GraphsyncKey) s.graphsyncRequestMap with
  | none => ⟨s, [], []⟩
  | some chid =>
    let evts : List Event :=
      if status = .cancelled then []
      else [.onChannelCompleted chid (decide (status = .completedFull))]
    ⟨cleanupChannel s chid ⟨request.id, p⟩, evts, []⟩

/-- `gsRequestorCancelledListener`. -/
def gsRequestorCancelledListener (s : TransportState) (p : PeerID)
    (request : GsRequestData) : TransportState :=
  match mlookup (⟨request.id, p⟩ : GraphsyncKey) s.graphsyncRequestMap with
  | none => s
  | some chid =>
    { s with requestorCancelledSet := sinsert chid s.requestorCancelledSet }

/-- `processExtension`: decode the extension of an update or response on an
already-correlated channel, re-validate the direction against the channel
id, and dispatch.  Returns the handler's response message, the error, and
the events raised. -/
def processExtension (h : EventsHandler) (s : TransportState) (chid : ChannelID)
    (ext : ExtensionPayload) (p : PeerID) :
    Option DTResponse × Option DTError × List Event :=
  match ext with
  | .malformed raw => (none, some (.decodeError raw), [])
  | .missing => (none, none, [])
  | .present msg =>
    match msg with
    | .request r =>
      if chid ≠ (⟨p, 0, r.xferID⟩ : ChannelID) then
        (none, some .requestOnResponseChannel, [])
      else
        let pr := h.onRequestReceived chid r
        (pr.1, pr.2, [.onRequestReceived chid r])
    | .response r =>
      if chid ≠ (⟨s.peerID, 0, r.xferID⟩ : ChannelID) then
        (none, some .responseOnRequestChannel, [])
      else
        (none, h.onResponseReceived chid r, [.onResponseReceived chid r])

/-- `gsRequestUpdatedHook`. -/
def gsRequestUpdatedHook (h : EventsHandler) (s : TransportState) (p : PeerID)
    (request : GsRequestData) (update : GsRequestData) : HookResult :=
  match mlookup (⟨request.id, p⟩ : GraphsyncKey) s.graphsyncRequestMap with
  | none => ⟨s, [], []⟩
  | some chid =>
    let pr := processExtension h s chid update.ext p
    let sendActs : List HookAction :=
      match pr.1 with
      | some rm => [.sendExtensionData (toExtensionData (.response rm))]
      | none => []
    let errActs : List HookAction :=
      match pr.2.1 with
      | some e => [.terminateWithError e]
      | none => []
    ⟨s, pr.2.2, sendActs ++ errActs⟩

/-- `gsIncomingResponseHook`. -/
def gsIncomingResponseHook (h : EventsHandler) (s : TransportState) (p : PeerID)
    (response : GsResponseData) : HookResult :=
  match mlookup (⟨response.id, s.peerID⟩ : GraphsyncKey) s.graphsyncRequestMap with
  | none => ⟨s, [], []⟩
  | some chid =>
    let pr := processExtension h s chid response.ext p
    let sendActs : List HookAction :=
      match pr.1 with
      | some rm => [.updateRequestWithExtensions (toExtensionData (.response rm))]
      | none => []
    let errActs : List HookAction :=
      match pr.2.1 with
      | some e => [.terminateWithError e]
      | none => []
    ⟨s, pr.2.2, sendActs ++ errActs⟩

/-- Calls issued by the out-of-band receiver (`impl/receiver.go`) to the
transport and the side-channel network. -/
inductive ReceiverAction where
  | resumeChannel (msg : Option DTResponse) (chid : ChannelID)
  | openChannel (dest : PeerID) (chid : ChannelID) (root : Nat) (selector : Nat)
      (msg : DTResponse)
  | sendMessage (dest : PeerID) (msg : DTResponse)
  | pauseChannel (chid : ChannelID)
  | closeChannel (chid : ChannelID)
deriving DecidableEq, Repr

/-- `receiver.receiveRequest`.  The manager handler's result is passed in as
`(response, receiveErr)`; the outcomes of the transport or network calls the
receiver makes are passed as the remaining oracles (`none` = success).
Returns the calls issued in order and the function's error result. -/
def receiveRequest (initiator : PeerID) (incoming : DTRequest)
    (response : Option DTResponse) (receiveErr : Option DTError)
    (resumeErr openErr sendErr pauseErr : Option DTError) :
    List ReceiverAction × Option DTError :=
  let chid : ChannelID := ⟨initiator, 0, incoming.xferID⟩
  if receiveErr = some .resume then
    ([.resumeChannel response chid], resumeErr)
  else
    let tail : List ReceiverAction × Option DTError :=
      if receiveErr = some .pause then
        ([.pauseChannel chid], pauseErr)
      else
        match receiveErr with
        | some e => ([.closeChannel chid], some e)
        | none => ([], none)
    match response with
    | none => tail
    | some resp =>
      if !resp.isUpdate && resp.accepted && !incoming.isPull then
        let act : ReceiverAction :=
          .openChannel initiator chid incoming.baseCid incoming.selector resp
        match openErr with
        | some e => ([act], some e)
        | none => (act :: tail.1, tail.2)
      else
        let act : ReceiverAction := .sendMessage initiator resp
        match sendErr with
        | some e => ([act], some e)
        | none => (act :: tail.1, tail.2)

/-- A handler whose callbacks all succeed and return no message. -/
def trivialHandler : EventsHandler where
  onChannelOpened := fun _ => none
  onDataReceived := fun _ _ _ => none
  onDataSent := fun _ _ _ => (none, none)
  onRequestReceived := fun _ _ => (none, none)
  onResponseReceived := fun _ _ => none
  onChannelCompleted := fun _ _ => none

/-- A handler whose `OnChannelOpened` rejects the channel. -/
def rejectingHandler : EventsHandler where
  onChannelOpened := fun _ => some (.handlerFailure 1)
  onDataReceived := fun _ _ _ => none
  onDataSent := fun _ _ _ => (none, none)
  onRequestReceived := fun _ _ => (none, none)
  onResponseReceived := fun _ _ => none
  onChannelCompleted := fun _ _ => none

/-- Recognizer for `OnDataSent` events. -/
def isDataSentEvent : Event → Bool
  | .onDataSent _ _ _ => true
  | _ => false

/-- The block-progress invariant: every record satisfies
`currentSent ≤ maximumSent`. -/
def progressInvariant (s : TransportState) : Prop :=
  ∀ chid rp, mlookup chid s.responseProgressMap = some rp →
    rp.currentSent ≤ rp.maximumSent

@[simp]
theorem mlookup_nil {K V : Type} [DecidableEq K] (k : K) :
    mlookup k ([] : List (K × V)) = none := rfl

@[simp]
theorem mlookup_cons {K V : Type} [DecidableEq K] (k k1 : K) (v : V)
    (m : List (K × V)) :
    mlookup k ((k1, v) :: m) = if k1 = k then some v else mlookup k m := rfl

@[simp]
theorem mlookup_merase_self {K V : Type} [DecidableEq K] (k : K)
    (m : List (K × V)) : mlookup k (merase k m) = none := by
  induction m with
  | nil => rfl
  | cons kv rest ih =>
    obtain ⟨a, b⟩ := kv
    by_cases hk : a = k <;> simp [merase, hk, mlookup, ih]

theorem mlookup_merase_ne {K V : Type} [DecidableEq K] (k k1 : K)
    (m : List (K × V)) (hne : k1 ≠ k) :
    mlookup k (merase k1 m) = mlookup k m := by
  induction m with
  | nil => rfl
  | cons kv rest ih =>
    obtain ⟨a, b⟩ := kv
    by_cases hk1 : a = k1
    · subst hk1
      simp [merase, mlookup, hne, ih]
    · by_cases hak : a = k
      · subst hak
        simp [merase, hk1, mlookup]
      · simp [merase, hk1, mlookup, hak, ih]

@[simp]
theorem mlookup_minsert_self {K V : Type} [DecidableEq K] (k : K) (v : V)
    (m : List (K × V)) : mlookup k (minsert k v m) = some v := by
  simp [minsert, mlookup]

theorem mlookup_minsert_ne {K V : Type} [DecidableEq K] (k k1 : K) (v : V)
    (m : List (K × V)) (hne : k1 ≠ k) :
    mlookup k (minsert k1 v m) = mlookup k m := by
  simp [minsert, mlookup, hne, mlookup_merase_ne _ _ _ hne]

@[simp]
theorem not_mem_serase_self {K : Type} [DecidableEq K] (k : K) (l : List K) :
    k ∉ serase k l := by
  induction l with
  | nil => simp [serase]
  | cons x rest ih =>
    by_cases hx : x = k
    · simp [serase, hx, ih]
    · simp only [serase, if_neg hx, List.mem_cons]
      rintro (hcontra | hmem)
      · exact hx hcontra.symm
      · exact ih hmem

theorem mem_serase_of_ne {K : Type} [DecidableEq K] (k k1 : K) (l : List K)
    (hne : k ≠ k1) : k ∈ serase k1 l ↔ k ∈ l := by
  induction l with
  | nil => simp [serase]
  | cons x rest ih =>
    by_cases hx : x = k1
    · subst hx
      simp [serase, ih, hne]
    · simp [serase, hx, List.mem_cons, ih]

/-- C10: every control operation (OpenChannel, PauseChannel, ResumeChannel,
CloseChannel) invoked while the events handler is unset returns
ErrHandlerNotSet, issues no block-transport call, and leaves the transport
state — hence every correlation-store map — unchanged. -/
theorem c10_handler_not_set (s : TransportState) (chid : ChannelID)
    (dataSender : PeerID) (root stor : Nat) (msg : DTMessage)
    (m : Option DTMessage) :
    OpenChannel none s dataSender chid root stor msg = ⟨some .handlerNotSet, [], s⟩
    ∧ PauseChannel none s chid = ⟨some .handlerNotSet, [], s⟩
    ∧ ResumeChannel none s m chid = ⟨some .handlerNotSet, [], s⟩
    ∧ CloseChannel none s chid = ⟨some .handlerNotSet, [], s⟩ :=
  ⟨rfl, rfl, rfl, rfl⟩

/-- C5: an incoming graphsync request whose data-transfer extension is
present but fails to decode makes the incoming-request hook terminate with
the decode error, raise no event, change no state (so no channel bindings
are created), and not validate the request. -/
theorem c5_malformed_extension_terminates (h : EventsHandler)
    (s : TransportState) (p : PeerID) (rid raw : Nat) :
    gsReqRecdHook h s p ⟨rid, .malformed raw⟩
      = ⟨s, [], [.terminateWithError (.decodeError raw)]⟩ := rfl

/-- C1 counterexample: the local peer is 1, the remote peer is 2, and the
outgoing-request hook decodes a data-transfer request (IsRequest = true)
with TransferID 42.  The claim says the resolved channel id must have
Initiator = p = 2 in this hook too; the code resolves Initiator = 1
(the local peer). -/
theorem c1_counterexample :
    (gsOutgoingRequestHook trivialHandler (emptyState 1) 2
        ⟨5, .present (.request ⟨42, true, 7, 8⟩)⟩).events
      = [.onChannelOpened ⟨1, 0, 42⟩] ∧ (1 : PeerID) ≠ 2 :=
  ⟨rfl, by decide⟩

/-- Helper: the incoming-request hook on a decodable extension raises
exactly one event, whose channel id is determined by the message tag. -/
theorem gsReqRecdHook_events_present (h : EventsHandler) (s : TransportState)
    (p : PeerID) (rid : GsRequestID) (msg : DTMessage) :
    (gsReqRecdHook h s p ⟨rid, .present msg⟩).events
      = [match msg with
         | .request r => Event.onRequestReceived ⟨p, 0, r.xferID⟩ r
         | .response r => Event.onResponseReceived ⟨s.peerID, 0, r.xferID⟩ r] := by
  cases msg with
  | request r =>
    rcases herr : h.onRequestReceived ⟨p, 0, r.xferID⟩ r with ⟨resp, err⟩
    cases err with
    | none => simp [gsReqRecdHook, herr]
    | some e =>
      by_cases hp : e = DTError.pause <;> simp [gsReqRecdHook, herr, hp]
  | response r =>
    cases herr : h.onResponseReceived ⟨s.peerID, 0, r.xferID⟩ r with
    | none => simp [gsReqRecdHook, herr]
    | some e =>
      by_cases hp : e = DTError.pause <;> simp [gsReqRecdHook, herr, hp]

/-- C1 amended: the message tag determines the initiator in both hooks, but
with opposite orientation.  In the incoming-request hook a request message
resolves to Initiator = p and a response to Initiator = self; in the
outgoing-request hook a request message resolves to Initiator = self and a
response to Initiator = p (in both hooks the initiator is the peer that
sent the data-transfer request message, and ID = msg.TransferID). -/
theorem c1_initiator_rule (h : EventsHandler) (s : TransportState)
    (p : PeerID) (rid : GsRequestID) (msg : DTMessage) :
    (gsOutgoingRequestHook h s p ⟨rid, .present msg⟩).events
      = [.onChannelOpened ⟨if msg.isRequest then s.peerID else p, 0, msg.transferID⟩]
    ∧ (gsReqRecdHook h s p ⟨rid, .present msg⟩).events
      = [match msg with
         | .request r => .onRequestReceived ⟨p, 0, r.xferID⟩ r
         | .response r => .onResponseReceived ⟨s.peerID, 0, r.xferID⟩ r] :=
  ⟨rfl, gsReqRecdHook_events_present h s p rid msg⟩

/-- Helper: the outgoing-block hook is a no-op on an uncorrelated request. -/
theorem gsOutgoingBlockHook_nobind (h : EventsHandler) (s : TransportState)
    (p : PeerID) (req : GsRequestData) (link size : Nat)
    (hb : mlookup (⟨req.id, p⟩ : GraphsyncKey) s.graphsyncRequestMap = none) :
    gsOutgoingBlockHook h s p req link size = ⟨s, [], []⟩ := by
  simp [gsOutgoingBlockHook, hb]

/-- Helper: the outgoing-block hook is modelled as a no-op when the
correlated channel has no progress record (a state the adapter never
reaches; the Go code would dereference nil there). -/
theorem gsOutgoingBlockHook_noprogress (h : EventsHandler) (s : TransportState)
    (p : PeerID) (req : GsRequestData) (link size : Nat) (chid : ChannelID)
    (hb : mlookup (⟨req.id, p⟩ : GraphsyncKey) s.graphsyncRequestMap = some chid)
    (hrp : mlookup chid s.responseProgressMap = none) :
    gsOutgoingBlockHook h s p req link size = ⟨s, [], []⟩ := by
  simp [gsOutgoingBlockHook, hb, hrp]

/-- Helper: on a correlated channel with progress record (cur, max), the
outgoing-block hook raises OnDataSent exactly when cur + size exceeds max,
and always stores the record (cur + size, max max (cur + size)). -/
theorem gsOutgoingBlockHook_run (h : EventsHandler) (s : TransportState)
    (p : PeerID) (req : GsRequestData) (link size : Nat) (chid : ChannelID)
    (rp : ResponseProgress)
    (hb : mlookup (⟨req.id, p⟩ : GraphsyncKey) s.graphsyncRequestMap = some chid)
    (hrp : mlookup chid s.responseProgressMap = some rp) :
    (gsOutgoingBlockHook h s p req link size).events
      = (if rp.currentSent + size ≤ rp.maximumSent then []
         else [.onDataSent chid link size])
    ∧ (gsOutgoingBlockHook h s p req link size).state.responseProgressMap
      = minsert chid ⟨rp.currentSent + size, max rp.maximumSent (rp.currentSent + size)⟩
          s.responseProgressMap := by
  by_cases hle : rp.currentSent + size ≤ rp.maximumSent
  · have hmax : max rp.maximumSent (rp.currentSent + size) = rp.maximumSent :=
      Nat.max_eq_left hle
    constructor <;> simp [gsOutgoingBlockHook, hb, hrp, hle, hmax]
  · have hmax : max rp.maximumSent (rp.currentSent + size) = rp.currentSent + size :=
      Nat.max_eq_right (le_of_not_le hle)
    rcases hds : h.onDataSent chid link size with ⟨msg, err⟩
    cases err with
    | none => constructor <;> simp [gsOutgoingBlockHook, hb, hrp, hle, hds, hmax]
    | some e =>
      by_cases hp : e = DTError.pause <;>
        (constructor <;> simp [gsOutgoingBlockHook, hb, hrp, hle, hds, hp, hmax])

/-- Helper: the incoming-request hook either leaves the response-progress
map unchanged (no-op, malformed, or handler-error termination) or, when it
reaches its locked binding section for some channel, resets that channel's
currentSent to 0 (keeping maximumSent) or installs a fresh (0, 0) record. -/
theorem gsReqRecdHook_rpm (h : EventsHandler) (s : TransportState) (p : PeerID)
    (req : GsRequestData) :
    (gsReqRecdHook h s p req).state.responseProgressMap = s.responseProgressMap
    ∨ ∃ chid : ChannelID,
        (gsReqRecdHook h s p req).state.responseProgressMap
          = (match mlookup chid s.responseProgressMap with
             | some rp => minsert chid ⟨0, rp.maximumSent⟩ s.responseProgressMap
             | none => minsert chid ⟨0, 0⟩ s.responseProgressMap) := by
  obtain ⟨rid, ext⟩ := req
  cases ext with
  | malformed raw => exact Or.inl rfl
  | missing => exact Or.inl rfl
  | present msg =>
    cases msg with
    | request r =>
      rcases herr : h.onRequestReceived ⟨p, 0, r.xferID⟩ r with ⟨resp, err⟩
      cases err with
      | none =>
        refine Or.inr ⟨⟨p, 0, r.xferID⟩, ?_⟩
        by_cases hc : (⟨p, 0, r.xferID⟩ : ChannelID) ∈ s.requestorCancelledSet <;>
          rcases hm : mlookup (⟨p, 0, r.xferID⟩ : ChannelID) s.responseProgressMap
            with _ | rp <;>
          simp [gsReqRecdHook, herr, hc, hm]
      | some e =>
        by_cases hp : e = DTError.pause
        · refine Or.inr ⟨⟨p, 0, r.xferID⟩, ?_⟩
          by_cases hc : (⟨p, 0, r.xferID⟩ : ChannelID) ∈ s.requestorCancelledSet <;>
            rcases hm : mlookup (⟨p, 0, r.xferID⟩ : ChannelID) s.responseProgressMap
              with _ | rp <;>
            simp [gsReqRecdHook, herr, hp, hc, hm]
        · exact Or.inl (by simp [gsReqRecdHook, herr, hp])
    | response r =>
      cases herr : h.onResponseReceived ⟨s.peerID, 0, r.xferID⟩ r with
      | none =>
        refine Or.inr ⟨⟨s.peerID, 0, r.xferID⟩, ?_⟩
        by_cases hc : (⟨s.peerID, 0, r.xferID⟩ : ChannelID) ∈ s.requestorCancelledSet <;>
          rcases hm : mlookup (⟨s.peerID, 0, r.xferID⟩ : ChannelID) s.responseProgressMap
            with _ | rp <;>
          simp [gsReqRecdHook, herr, hc, hm]
      | some e =>
        by_cases hp : e = DTError.pause
        · refine Or.inr ⟨⟨s.peerID, 0, r.xferID⟩, ?_⟩
          by_cases hc : (⟨s.peerID, 0, r.xferID⟩ : ChannelID) ∈ s.requestorCancelledSet <;>
            rcases hm : mlookup (⟨s.peerID, 0, r.xferID⟩ : ChannelID) s.responseProgressMap
              with _ | rp <;>
            simp [gsReqRecdHook, herr, hp, hc, hm]
        · exact Or.inl (by simp [gsReqRecdHook, herr, hp])

/-- Helper: inserting a record that satisfies the watermark bound preserves
the bound for every record in the map. -/
theorem progressInvariant_insert (m : List (ChannelID × ResponseProgress))
    (chid : ChannelID) (rp : ResponseProgress)
    (hrp : rp.currentSent ≤ rp.maximumSent)
    (hm : ∀ c q, mlookup c m = some q → q.currentSent ≤ q.maximumSent) :
    ∀ c q, mlookup c (minsert chid rp m) = some q →
      q.currentSent ≤ q.maximumSent := by
  intro c q hl
  by_cases hc : chid = c
  · subst hc
    rw [mlookup_minsert_self] at hl
    cases hl
    exact hrp
  · rw [mlookup_minsert_ne _ _ _ _ hc] at hl
    exact hm c q hl

/-- A state with one responder-side correlated channel (local peer 1,
remote peer 2, graphsync request 5, transfer 42) and a fresh progress
record, as installed by the incoming-request hook. -/
def boundState : TransportState :=
  { peerID := 1
    graphsyncRequestMap := [(⟨5, 2⟩, ⟨2, 0, 42⟩)]
    channelIDMap := [(⟨2, 0, 42⟩, ⟨5, 2⟩)]
    contextCancelSet := []
    pending := []
    requestorCancelledSet := []
    pendingExtensions := []
    responseProgressMap := [(⟨2, 0, 42⟩, ⟨0, 0⟩)] }

/-- The same channel after the requestor-cancelled listener has fired. -/
def cancelledState : TransportState :=
  { boundState with requestorCancelledSet := [⟨2, 0, 42⟩] }

/-- C2 counterexample: on a correlated channel with a fresh progress
record, calling the outgoing-block hook three times in a row with the same
block of size 100 raises OnDataSent three times, not once: each call adds
100 to currentSent, which then exceeds the previous maximumSent again.
(The dedup only suppresses re-sends that follow a currentSent reset by the
incoming-request hook.) -/
theorem c2_counterexample :
    ((gsOutgoingBlockHook trivialHandler boundState 2 ⟨5, .missing⟩ 9 100).events
      ++ (gsOutgoingBlockHook trivialHandler
            (gsOutgoingBlockHook trivialHandler boundState 2 ⟨5, .missing⟩ 9 100).state
            2 ⟨5, .missing⟩ 9 100).events
      ++ (gsOutgoingBlockHook trivialHandler
            (gsOutgoingBlockHook trivialHandler
              (gsOutgoingBlockHook trivialHandler boundState 2 ⟨5, .missing⟩ 9 100).state
              2 ⟨5, .missing⟩ 9 100).state
            2 ⟨5, .missing⟩ 9 100).events).countP isDataSentEvent = 3
    ∧ (3 : Nat) ≠ 1 := by
  constructor
  · decide
  · decide

/-- C2 amended: for every block delivered to the outgoing-block hook on a
correlated channel with progress record (cur, max), OnDataSent is raised
exactly when cur + size exceeds max.  In particular a replay of an
already-counted byte extent raises nothing only after the incoming-request
hook has reset currentSent to 0 (the graphsync re-send path); the hook
itself does not deduplicate repeated direct invocations, whose cumulative
currentSent keeps exceeding maximumSent. -/
theorem c2_dedup (h : EventsHandler) (s : TransportState) (p : PeerID)
    (req : GsRequestData) (link size : Nat) (chid : ChannelID)
    (rp : ResponseProgress)
    (hbind : mlookup (⟨req.id, p⟩ : GraphsyncKey) s.graphsyncRequestMap = some chid)
    (hrp : mlookup chid s.responseProgressMap = some rp) :
    (gsOutgoingBlockHook h s p req link size).events
      = (if rp.currentSent + size ≤ rp.maximumSent then []
         else [.onDataSent chid link size])
    ∧ mlookup chid (gsOutgoingBlockHook h s p req link size).state.responseProgressMap
      = some ⟨rp.currentSent + size, max rp.maximumSent (rp.currentSent + size)⟩ := by
  obtain ⟨hev, hst⟩ := gsOutgoingBlockHook_run h s p req link size chid rp hbind hrp
  exact ⟨hev, by rw [hst, mlookup_minsert_self]⟩

/-- C2 witness: a fresh record (0, 0) and a block of size 100 raise
OnDataSent once; replaying the block after a currentSent reset (record
(0, 100)) raises nothing. -/
theorem c2_witness :
    (gsOutgoingBlockHook trivialHandler boundState 2 ⟨5, .missing⟩ 9 100).events
      = [.onDataSent ⟨2, 0, 42⟩ 9 100] := by
  have hmain := c2_dedup trivialHandler boundState 2 ⟨5, .missing⟩ 9 100
    ⟨2, 0, 42⟩ ⟨0, 0⟩ (by decide) (by decide)
  simpa using hmain.1

/-- C3: while the requestor-cancelled flag is set for a correlated
responder-side channel (the key's peer is not the local peer), none of
PauseChannel, ResumeChannel, CloseChannel issues any block-transport call —
in particular no PauseResponse, UnpauseResponse or CancelResponse: Pause
succeeds as a pure no-op, Resume succeeds and appends the encoded message
to the channel's queued extensions, and Close succeeds and removes all
per-channel state. -/
theorem c3_cancelled_window_suppression (h : EventsHandler)
    (s : TransportState) (chid : ChannelID) (gsKey : GraphsyncKey)
    (m : DTMessage)
    (hbind : mlookup chid s.channelIDMap = some gsKey)
    (hresp : gsKey.p ≠ s.peerID)
    (hcanc : chid ∈ s.requestorCancelledSet) :
    PauseChannel (some h) s chid = ⟨none, [], s⟩
    ∧ (ResumeChannel (some h) s (some m) chid).err = none
    ∧ (ResumeChannel (some h) s (some m) chid).actions = []
    ∧ mlookup chid (ResumeChannel (some h) s (some m) chid).state.pendingExtensions
        = some ((mlookup chid s.pendingExtensions).getD [] ++ [toExtensionData m])
    ∧ CloseChannel (some h) s chid = ⟨none, [], cleanupChannel s chid gsKey⟩
    ∧ mlookup chid (cleanupChannel s chid gsKey).channelIDMap = none
    ∧ mlookup gsKey (cleanupChannel s chid gsKey).graphsyncRequestMap = none
    ∧ chid ∉ (cleanupChannel s chid gsKey).requestorCancelledSet
    ∧ mlookup chid (cleanupChannel s chid gsKey).pendingExtensions = none
    ∧ mlookup chid (cleanupChannel s chid gsKey).responseProgressMap = none
    ∧ chid ∉ (cleanupChannel s chid gsKey).pending
    ∧ chid ∉ (cleanupChannel s chid gsKey).contextCancelSet := by
  refine ⟨?_, ?_, ?_, ?_, ?_, ?_, ?_, ?_, ?_, ?_, ?_, ?_⟩ <;>
    simp [PauseChannel, ResumeChannel, CloseChannel, gsKeyFromChannelID,
      hbind, hresp, hcanc, cleanupChannel]

/-- C3 witness: local peer 1 is the responder of graphsync request 5 from
peer 2 and the requestor-cancelled flag is set; PauseChannel succeeds
without issuing any graphsync call. -/
theorem c3_witness :
    PauseChannel (some trivialHandler) cancelledState ⟨2, 0, 42⟩
      = ⟨none, [], cancelledState⟩ :=
  (c3_cancelled_window_suppression trivialHandler cancelledState ⟨2, 0, 42⟩
      ⟨5, 2⟩ (DTMessage.response ⟨42, true, false⟩)
      (by decide) (by decide) (by decide)).1

/-- C9: the block-progress watermark invariant currentSent ≤ maximumSent
holds before each deduplication step (it is preserved by both the
outgoing-block hook and the incoming-request hook, the only operations
that write progress records, so it holds on entry to every hook), and
immediately after the outgoing-block hook the touched record's maximumSent
equals max of its previous maximumSent and the new currentSent. -/
theorem c9_watermark_invariant (h : EventsHandler) (s : TransportState)
    (p : PeerID) (req : GsRequestData) (link size : Nat)
    (hinv : progressInvariant s) :
    progressInvariant (gsOutgoingBlockHook h s p req link size).state
    ∧ progressInvariant (gsReqRecdHook h s p req).state
    ∧ (∀ chid rp,
        mlookup (⟨req.id, p⟩ : GraphsyncKey) s.graphsyncRequestMap = some chid →
        mlookup chid s.responseProgressMap = some rp →
        mlookup chid (gsOutgoingBlockHook h s p req link size).state.responseProgressMap
          = some ⟨rp.currentSent + size, max rp.maximumSent (rp.currentSent + size)⟩) := by
  refine ⟨?_, ?_, ?_⟩
  · rcases hb : mlookup (⟨req.id, p⟩ : GraphsyncKey) s.graphsyncRequestMap
      with _ | chid
    · rw [gsOutgoingBlockHook_nobind h s p req link size hb]
      exact hinv
    · rcases hrp : mlookup chid s.responseProgressMap with _ | rp
      · rw [gsOutgoingBlockHook_noprogress h s p req link size chid hb hrp]
        exact hinv
      · have hst := (gsOutgoingBlockHook_run h s p req link size chid rp hb hrp).2
        intro c q hl
        rw [hst] at hl
        exact progressInvariant_insert _ _ _ (Nat.le_max_right _ _) hinv c q hl
  · rcases gsReqRecdHook_rpm h s p req with heq | ⟨chid, heq⟩
    · intro c q hl
      rw [heq] at hl
      exact hinv c q hl
    · intro c q hl
      rw [heq] at hl
      rcases hm : mlookup chid s.responseProgressMap with _ | rp <;>
        rw [hm] at hl
      · exact progressInvariant_insert _ _ _ (Nat.zero_le _) hinv c q hl
      · exact progressInvariant_insert _ _ _ (Nat.zero_le _) hinv c q hl
  · intro chid rp hb hrp
    have hst := (gsOutgoingBlockHook_run h s p req link size chid rp hb hrp).2
    rw [hst, mlookup_minsert_self]

/-- Helper: the singleton progress map of `boundState` satisfies the
watermark invariant. -/
theorem boundState_invariant : progressInvariant boundState := by
  intro c q hl
  simp only [boundState, mlookup] at hl
  split at hl
  · cases hl
    exact Nat.le_refl 0
  · exact Option.noConfusion hl

/-- C9 witness: starting from the fresh record (0, 0) with a block of size
100, the record after the hook is (100, max 0 100) = (100, 100). -/
theorem c9_witness :
    mlookup (⟨2, 0, 42⟩ : ChannelID)
        (gsOutgoingBlockHook trivialHandler boundState 2
          ⟨5, .missing⟩ 9 100).state.responseProgressMap
      = some ⟨100, 100⟩ := by
  have hmain := c9_watermark_invariant trivialHandler boundState 2
    ⟨5, .missing⟩ 9 100 boundState_invariant
  have h3 := hmain.2.2 ⟨2, 0, 42⟩ ⟨0, 0⟩ (by decide) (by decide)
  simpa using h3

/-- C4: in the outgoing-request hook, when OnChannelOpened returns an
error, neither correlation map is touched but the pending-signal for the
channel is closed and removed, so a control call then resolving the key
fails with ChannelNotFound; when it returns no error, the forward and
reverse bindings (requestID, self) and chid are both installed (and the
pending-signal is removed as well). -/
theorem c4_outgoing_hook_binding (h : EventsHandler) (s : TransportState)
    (p : PeerID) (rid : GsRequestID) (msg : DTMessage) :
    (h.onChannelOpened ⟨if msg.isRequest then s.peerID else p, 0, msg.transferID⟩ ≠ none →
      (gsOutgoingRequestHook h s p ⟨rid, .present msg⟩).state
        = { s with pending :=
              serase ⟨if msg.isRequest then s.peerID else p, 0, msg.transferID⟩ s.pending }
      ∧ (mlookup (⟨if msg.isRequest then s.peerID else p, 0, msg.transferID⟩ : ChannelID)
            s.channelIDMap = none →
          gsKeyFromChannelID (gsOutgoingRequestHook h s p ⟨rid, .present msg⟩).state
              ⟨if msg.isRequest then s.peerID else p, 0, msg.transferID⟩
            = .error .channelNotFound))
    ∧ (h.onChannelOpened ⟨if msg.isRequest then s.peerID else p, 0, msg.transferID⟩ = none →
      mlookup (⟨rid, s.peerID⟩ : GraphsyncKey)
          (gsOutgoingRequestHook h s p ⟨rid, .present msg⟩).state.graphsyncRequestMap
        = some ⟨if msg.isRequest then s.peerID else p, 0, msg.transferID⟩
      ∧ mlookup (⟨if msg.isRequest then s.peerID else p, 0, msg.transferID⟩ : ChannelID)
          (gsOutgoingRequestHook h s p ⟨rid, .present msg⟩).state.channelIDMap
        = some ⟨rid, s.peerID⟩
      ∧ (gsOutgoingRequestHook h s p ⟨rid, .present msg⟩).state.pending
        = serase ⟨if msg.isRequest then s.peerID else p, 0, msg.transferID⟩ s.pending) := by
  constructor
  · intro herr
    have hstate : (gsOutgoingRequestHook h s p ⟨rid, .present msg⟩).state
        = { s with pending :=
              serase ⟨if msg.isRequest then s.peerID else p, 0, msg.transferID⟩ s.pending } := by
      simp [gsOutgoingRequestHook, herr]
    refine ⟨hstate, ?_⟩
    intro hnone
    rw [hstate]
    simp [gsKeyFromChannelID, hnone]
  · intro herr
    refine ⟨?_, ?_, ?_⟩ <;> simp [gsOutgoingRequestHook, herr]

/-- C4 witness: the handler rejects the channel; the maps stay empty and a
subsequent key resolution fails with ChannelNotFound. -/
theorem c4_witness :
    (gsOutgoingRequestHook rejectingHandler (emptyState 1) 2
        ⟨5, .present (.request ⟨42, true, 7, 8⟩)⟩).state
      = { emptyState 1 with pending := serase ⟨1, 0, 42⟩ (emptyState 1).pending }
    ∧ gsKeyFromChannelID
        (gsOutgoingRequestHook rejectingHandler (emptyState 1) 2
          ⟨5, .present (.request ⟨42, true, 7, 8⟩)⟩).state ⟨1, 0, 42⟩
      = .error .channelNotFound := by
  have hmain := (c4_outgoing_hook_binding rejectingHandler (emptyState 1) 2 5
    (DTMessage.request ⟨42, true, 7, 8⟩)).1 (by decide)
  exact ⟨hmain.1, hmain.2 (by decide)⟩

/-- C6: the completed-response listener is a no-op when (requestID, p) is
unknown; otherwise it raises no completion when the status is Cancelled and
raises OnChannelCompleted(chid, status == CompletedFull) for every other
status, and in every correlated case it removes all per-channel state. -/
theorem c6_completed_response_listener (h : EventsHandler)
    (s : TransportState) (p : PeerID) (req : GsRequestData)
    (status : ResponseStatus) :
    (mlookup (⟨req.id, p⟩ : GraphsyncKey) s.graphsyncRequestMap = none →
      gsCompletedResponseListener h s p req status = ⟨s, [], []⟩)
    ∧ ∀ chid,
        mlookup (⟨req.id, p⟩ : GraphsyncKey) s.graphsyncRequestMap = some chid →
        (gsCompletedResponseListener h s p req status).events
            = (if status = .cancelled then []
               else [.onChannelCompleted chid (decide (status = .completedFull))])
        ∧ (gsCompletedResponseListener h s p req status).state
            = cleanupChannel s chid ⟨req.id, p⟩
        ∧ mlookup chid
            (gsCompletedResponseListener h s p req status).state.channelIDMap = none
        ∧ mlookup (⟨req.id, p⟩ : GraphsyncKey)
            (gsCompletedResponseListener h s p req status).state.graphsyncRequestMap = none
        ∧ mlookup chid
            (gsCompletedResponseListener h s p req status).state.responseProgressMap = none
        ∧ mlookup chid
            (gsCompletedResponseListener h s p req status).state.pendingExtensions = none
        ∧ chid ∉ (gsCompletedResponseListener h s p req status).state.requestorCancelledSet
        ∧ chid ∉ (gsCompletedResponseListener h s p req status).state.pending
        ∧ chid ∉ (gsCompletedResponseListener h s p req status).state.contextCancelSet := by
  constructor
  · intro hnone
    simp [gsCompletedResponseListener, hnone]
  · intro chid hsome
    refine ⟨?_, ?_, ?_, ?_, ?_, ?_, ?_, ?_, ?_⟩ <;>
      simp [gsCompletedResponseListener, hsome, cleanupChannel]

/-- C6 witness: for the correlated channel of `boundState` and status
CompletedFull, the listener raises OnChannelCompleted with success = true
and the channel's binding is gone afterwards. -/
theorem c6_witness :
    (gsCompletedResponseListener trivialHandler boundState 2
        ⟨5, .missing⟩ .completedFull).events
      = [.onChannelCompleted ⟨2, 0, 42⟩ true]
    ∧ mlookup (⟨2, 0, 42⟩ : ChannelID)
        (gsCompletedResponseListener trivialHandler boundState 2
          ⟨5, .missing⟩ .completedFull).state.channelIDMap = none := by
  have hmain := (c6_completed_response_listener trivialHandler boundState 2
    ⟨5, .missing⟩ .completedFull).2 ⟨2, 0, 42⟩ (by decide)
  refine ⟨?_, hmain.2.2.1⟩
  simpa using hmain.1

/-- C7: when the incoming-response hook or the request-updated hook decodes
an extension on a correlated channel, a request message whose resolved id
(Initiator = p, ID = TransferID) differs from the channel fails with
"received request on response channel" raising no event; a response message
whose resolved id (Initiator = self) differs fails with "received response
on request channel" raising no event; on a direction match the message is
dispatched to OnRequestReceived or OnResponseReceived; and both hooks raise
exactly the events of processExtension. -/
theorem c7_direction_validation (h : EventsHandler) (s : TransportState)
    (chid : ChannelID) (p : PeerID) :
    (∀ r : DTRequest, chid ≠ ⟨p, 0, r.xferID⟩ →
        processExtension h s chid (.present (.request r)) p
          = (none, some .requestOnResponseChannel, []))
    ∧ (∀ r : DTResponse, chid ≠ ⟨s.peerID, 0, r.xferID⟩ →
        processExtension h s chid (.present (.response r)) p
          = (none, some .responseOnRequestChannel, []))
    ∧ (∀ r : DTRequest, chid = ⟨p, 0, r.xferID⟩ →
        (processExtension h s chid (.present (.request r)) p).2.2
          = [.onRequestReceived chid r])
    ∧ (∀ r : DTResponse, chid = ⟨s.peerID, 0, r.xferID⟩ →
        (processExtension h s chid (.present (.response r)) p).2.2
          = [.onResponseReceived chid r])
    ∧ (∀ resp : GsResponseData, ∀ chid1 : ChannelID,
        mlookup (⟨resp.id, s.peerID⟩ : GraphsyncKey) s.graphsyncRequestMap = some chid1 →
        (gsIncomingResponseHook h s p resp).events
          = (processExtension h s chid1 resp.ext p).2.2)
    ∧ (∀ request update : GsRequestData, ∀ chid1 : ChannelID,
        mlookup (⟨request.id, p⟩ : GraphsyncKey) s.graphsyncRequestMap = some chid1 →
        (gsRequestUpdatedHook h s p request update).events
          = (processExtension h s chid1 update.ext p).2.2) := by
  refine ⟨?_, ?_, ?_, ?_, ?_, ?_⟩
  · intro r hne
    simp [processExtension, hne]
  · intro r hne
    simp [processExtension, hne]
  · intro r heq
    simp [processExtension, heq]
  · intro r heq
    simp [processExtension, heq]
  · intro resp chid1 hsome
    simp [gsIncomingResponseHook, hsome]
  · intro request update chid1 hsome
    simp [gsRequestUpdatedHook, hsome]

/-- C7 witness: channel (Initiator = 1 = self, ID = 42) receives a response
message with TransferID 43; the resolved id differs, so processing fails
with "received response on request channel" and raises nothing. -/
theorem c7_witness :
    processExtension trivialHandler (emptyState 1) ⟨1, 0, 42⟩
        (.present (.response ⟨43, true, false⟩)) 2
      = (none, some .responseOnRequestChannel, []) :=
  (c7_direction_validation trivialHandler (emptyState 1) ⟨1, 0, 42⟩ 2).2.1
    ⟨43, true, false⟩ (by decide)

/-- C8: for a side-channel request whose handler returned a non-nil
response and an error other than ErrResume, and whose follow-up transport
or network call succeeds: when the response is accepted, not an update, and
the incoming request is a push, the first call issued opens an outgoing
block-transport channel toward the sender with root = the request's
BaseCid, the request's selector, and the response as the carried message;
otherwise the first call sends the response back over the side channel; and
PauseChannel(chid) is issued exactly when the handler's error is
ErrPause. -/
theorem c8_receive_request_dispatch (initiator : PeerID)
    (incoming : DTRequest) (resp : DTResponse) (receiveErr : Option DTError)
    (resumeErr pauseErr : Option DTError)
    (hnr : receiveErr ≠ some .resume) :
    ((!resp.isUpdate && resp.accepted && !incoming.isPull) = true →
      (receiveRequest initiator incoming (some resp) receiveErr
          resumeErr none none pauseErr).1.head?
        = some (.openChannel initiator ⟨initiator, 0, incoming.xferID⟩
            incoming.baseCid incoming.selector resp))
    ∧ ((!resp.isUpdate && resp.accepted && !incoming.isPull) = false →
      (receiveRequest initiator incoming (some resp) receiveErr
          resumeErr none none pauseErr).1.head?
        = some (.sendMessage initiator resp))
    ∧ (ReceiverAction.pauseChannel ⟨initiator, 0, incoming.xferID⟩
        ∈ (receiveRequest initiator incoming (some resp) receiveErr
            resumeErr none none pauseErr).1
       ↔ receiveErr = some .pause) := by
  refine ⟨?_, ?_, ?_⟩
  · intro hc
    rcases receiveErr with _ | e
    · simp [receiveRequest, hc]
    · have he : e ≠ DTError.resume := fun hcontra => hnr (by rw [hcontra])
      by_cases hp : e = DTError.pause <;>
        simp [receiveRequest, hc, he, hp]
  · intro hc
    rcases receiveErr with _ | e
    · simp [receiveRequest, hc]
    · have he : e ≠ DTError.resume := fun hcontra => hnr (by rw [hcontra])
      by_cases hp : e = DTError.pause <;>
        simp [receiveRequest, hc, he, hp]
  · rcases receiveErr with _ | e
    · by_cases hc : (!resp.isUpdate && resp.accepted && !incoming.isPull) = true <;>
        simp [receiveRequest, hc]
    · have he : e ≠ DTError.resume := fun hcontra => hnr (by rw [hcontra])
      by_cases hp : e = DTError.pause <;>
        by_cases hc : (!resp.isUpdate && resp.accepted && !incoming.isPull) = true <;>
        simp [receiveRequest, hc, he, hp]

/-- C8 witness: peer 2 pushes transfer 7 (Pull = false) with BaseCid 11 and
selector 12; the handler accepts with ErrPause: the receiver opens an
outgoing channel toward peer 2 carrying the response, then pauses the
channel. -/
theorem c8_witness :
    (receiveRequest 2 ⟨7, false, 11, 12⟩ (some ⟨7, true, false⟩)
        (some .pause) none none none none).1.head?
      = some (.openChannel 2 ⟨2, 0, 7⟩ 11 12 ⟨7, true, false⟩)
    ∧ ReceiverAction.pauseChannel ⟨2, 0, 7⟩
        ∈ (receiveRequest 2 ⟨7, false, 11, 12⟩ (some ⟨7, true, false⟩)
            (some .pause) none none none none).1 := by
  have hmain := c8_receive_request_dispatch 2 ⟨7, false, 11, 12⟩
    ⟨7, true, false⟩ (some .pause) none none (by decide)
  exact ⟨hmain.1 (by decide), hmain.2.2.mpr rfl⟩

end DT
